import Mathlib

/-!
Shallow embedding of the Round 1 Plaza Bonita opening-notification worker
(src/index.ts) and proofs about its opening-time parser, timeout calculator,
day-counter fallback and orchestrator (the exported `scheduled` handler).

Modelling conventions:
* A Luxon `DateTime` pinned to the fixed Pacific zone is modelled as a civil
  day index together with a millisecond-of-day, both integers; differences of
  the derived absolute instant model Luxon `diff`/`diffNow` in milliseconds.
  Daylight-saving transitions are not modelled: every civil day is 86400000 ms.
* A possibly invalid Luxon `DateTime` (or a `Duration` field read off one) is
  an `Option` value: `none` models `isValid = false`, whose field reads are
  `NaN`/`undefined` in the source.
* The invocation is treated as instantaneous: every call of `DateTime.now()`
  during one run yields the same instant `now`, passed explicitly.
* External collaborators (the storepoint fetch, the Discord webhook fetch, the
  D1 read and write) are parameters returning `Except String`: `.error`
  models a rejected promise (a thrown exception), `.ok` a resolved one.
* JavaScript `String.prototype.split` / `trim` are re-implemented over
  character lists (`jsSplit`, `jsTrim`) because they must evaluate inside the
  kernel; they follow the JS semantics for a non-empty separator.
-/

/-- One civil day in milliseconds (no daylight-saving transitions modelled). -/
def msPerDay : Int := 86400000

/-- Model of a valid Luxon DateTime in the fixed zone "America/Los_Angeles":
a civil day index (day 0 is Saturday 2024-06-22 PT, the venue's opening date)
and the millisecond of that civil day. -/
structure PTDateTime where
  day : Int
  msOfDay : Int

/-- Model of the absolute instant of a PT DateTime, in milliseconds.  Only
differences of instants are ever used, so the arbitrary origin is harmless. -/
def PTDateTime.instant (d : PTDateTime) : Int := d.day * msPerDay + d.msOfDay

/-- Model of Luxon `set({ hour, minute, second, millisecond })` on a valid
DateTime: the civil date is kept and the time of day replaced. -/
def PTDateTime.set (d : PTDateTime) (hour minute second millisecond : Int) : PTDateTime :=
  { d with msOfDay := ((hour * 60 + minute) * 60 + second) * 1000 + millisecond }

/-- Model of `getTodayPT` (src/index.ts:60-62): `DateTime.now()` is always
valid and `setZone("America/Los_Angeles")` is a valid zone conversion, so the
result is always a valid DateTime (`some`). -/
def getTodayPT (now : PTDateTime) : Option PTDateTime := some now

/-- Model of Luxon `set` on a possibly invalid DateTime (or with `NaN` field
values coming from an invalid parse): invalidity propagates. -/
def setL (d : Option PTDateTime) (hour minute second millisecond : Int) : Option PTDateTime :=
  d.map (fun x => x.set hour minute second millisecond)

/-- Model of `d.diffNow().toObject().milliseconds`: defined (in ms) when `d`
is valid, `undefined` when `d` is invalid (an invalid Duration's `toObject()`
is empty). `DateTime.now()` itself is always valid. -/
def diffNowMsL (d : Option PTDateTime) (now : PTDateTime) : Option Int :=
  d.map (fun x => x.instant - now.instant)

/-- Model of `d.diffNow('days').toObject().days`: the exact signed number of
elapsed days as a rational, defined only when `d` is valid. -/
def diffNowDaysL (d : Option PTDateTime) (now : PTDateTime) : Option ℚ :=
  d.map (fun x => ((x.instant - now.instant : Int) : ℚ) / (msPerDay : ℚ))

/-- Constant from src/index.ts:12. -/
def PLAZA_BONITA_ID : Nat := 39156327

/-- Constant from src/index.ts:13. -/
def FALLBACK_HOUR : Int := 10

/-- Constant from src/index.ts:14: `3 * 60 * 1000`. -/
def FALLBACK_TIMEOUT : Int := 3 * 60 * 1000

/-- Constant from src/index.ts:15:
`DateTime.fromISO("2024-06-22T10:00:00.000-07:00")`.  The literal is a valid
ISO instant, hence a valid DateTime: day 0 of the model (2024-06-22 PT) at
10:00:00.000, i.e. 36000000 ms into the day. -/
def OPENING_DATE : Option PTDateTime := some { day := 0, msOfDay := 36000000 }

/-- Lowercase weekday names keyed by civil day index modulo 7; day 0
(2024-06-22 PT) was a Saturday. -/
def weekdayNames : List String :=
  ["saturday", "sunday", "monday", "tuesday", "wednesday", "thursday", "friday"]

/-- Model of `getCurrentDayOfWeekPT` (src/index.ts:68-70):
`getTodayPT().weekdayLong?.toLowerCase()`.  On a valid DateTime the weekday
name always exists, so the inline `throwError` branch is unreachable. -/
def getCurrentDayOfWeekPT (now : PTDateTime) : String :=
  weekdayNames.getD (now.day.emod 7).toNat ""

/-- Fuel-driven worker for `jsSplit`; the fuel is an upper bound on the input
length, so the fuel-exhausted clause is never reached when called through
`jsSplit`. -/
def jsSplitAux (sep : List Char) : Nat → List Char → List Char → List (List Char)
  | 0, rest, acc => [acc.reverse ++ rest]
  | _ + 1, [], acc => [acc.reverse]
  | fuel + 1, c :: rest, acc =>
    if sep.isPrefixOf (c :: rest) then
      acc.reverse :: jsSplitAux sep fuel (List.drop (sep.length - 1) rest) []
    else
      jsSplitAux sep fuel rest (c :: acc)

/-- Model of JavaScript `s.split(sep)` for a non-empty string separator:
split at every occurrence of `sep`, keeping empty pieces, never returning an
empty list. -/
def jsSplit (s sep : String) : List String :=
  (jsSplitAux sep.data (s.data.length + 1) s.data []).map (fun cs => String.mk cs)

/-- Model of JavaScript `s.trim()`: strip whitespace from both ends. -/
def jsTrim (s : String) : String :=
  String.mk (((s.data.dropWhile Char.isWhitespace).reverse.dropWhile Char.isWhitespace).reverse)

/-- Fields of a Luxon DateTime produced by `DateTime.fromFormat` that
`getOpeningTime` reads back: hour, minute, second, millisecond.  A format
that mentions only the hour defaults the lower-order fields to 0. -/
structure ParsedTime where
  hour : Int
  minute : Int
  second : Int
  millisecond : Int

/-- Luxon meridiem handling in `fromFormat` (tokenParser): an `h` value below
12 with PM gains 12 hours, exactly 12 with AM becomes 0, anything else is
kept. -/
def applyMeridiem (h : Nat) (isPM : Bool) : Nat :=
  if h < 12 && isPM then h + 12
  else if h == 12 && !isPM then 0
  else h

/-- Case-insensitive match of the meridiem designator, as Luxon compiles the
`a` token into an `AM|PM` alternation with the `i` regex flag: `some false`
for AM, `some true` for PM, `none` otherwise. -/
def meridiemOf (s : List Char) : Option Bool :=
  match s.map Char.toLower with
  | ['a', 'm'] => some false
  | ['p', 'm'] => some true
  | _ => none

/-- Numeric value of a digit string. -/
def digitsToNat (cs : List Char) : Nat :=
  cs.foldl (fun n c => 10 * n + (c.toNat - '0'.toNat)) 0

/-- Model of `DateTime.fromFormat(s, 'ha')`: one or two digits immediately
followed by a case-insensitive am/pm designator, the whole string anchored;
the meridiem rule is applied and the resulting hour must be a valid hour of
day (0-23), otherwise the DateTime is invalid (`none`). -/
def fromFormatHA (s : String) : Option ParsedTime :=
  let digits := s.data.takeWhile Char.isDigit
  let rest := s.data.dropWhile Char.isDigit
  if digits.length = 0 ∨ 2 < digits.length then none
  else
    match meridiemOf rest with
    | none => none
    | some pm =>
      let h := applyMeridiem (digitsToNat digits) pm
      if h ≤ 23 then some { hour := (h : Int), minute := 0, second := 0, millisecond := 0 }
      else none

/-- Model of `DateTime.fromFormat(s, 'h a')`: like `fromFormatHA` but with
exactly one literal space between the digits and the designator. -/
def fromFormatH_A (s : String) : Option ParsedTime :=
  let digits := s.data.takeWhile Char.isDigit
  let rest := s.data.dropWhile Char.isDigit
  if digits.length = 0 ∨ 2 < digits.length then none
  else
    match rest with
    | ' ' :: ms =>
      match meridiemOf ms with
      | none => none
      | some pm =>
        let h := applyMeridiem (digitsToNat digits) pm
        if h ≤ 23 then some { hour := (h : Int), minute := 0, second := 0, millisecond := 0 }
        else none
    | _ => none

/-- Lines 86-87 of `getOpeningTime` (src/index.ts):
`let times = hours.split('-'); times = times.length !== 2 ? hours.split('to') : times`.
Note the condition checks only the number of parts, not their emptiness. -/
def splitTimes (hours : String) : List String :=
  let times := jsSplit hours "-"
  if times.length ≠ 2 then jsSplit hours "to" else times

/-- Modelled from the spec, for the refinement claim about the split step: the
spec instead falls back to the `to` split when the `-` split "does not yield
exactly two non-empty parts". -/
def splitTimesSpec (hours : String) : List String :=
  let times := jsSplit hours "-"
  if times.length ≠ 2 ∨ "" ∈ times then jsSplit hours "to" else times

/-- Line 89 of `getOpeningTime`: `times[0].trim()`.  A JS split never returns
an empty array, so indexing 0 always succeeds; `headD` with an arbitrary
default mirrors that. -/
def openingToken (hours : String) : String :=
  jsTrim ((splitTimes hours).headD "")

/-- Model of `getOpeningTime` (src/index.ts:84-94).  A token rejected by both
formats leaves `openingTime` invalid; reading its fields gives `NaN` and the
final `set` then yields an invalid DateTime, modelled by `none`. -/
def getOpeningTime (now : PTDateTime) (hours : String) : Option PTDateTime :=
  let opening := openingToken hours
  let ot := fromFormatHA opening
  let ot := match ot with
    | none => fromFormatH_A opening
    | some t => some t
  match ot with
  | some t => setL (getTodayPT now) t.hour t.minute t.second t.millisecond
  | none => none

/-- Shape of the storepoint payload that the worker reads:
`{ success, results: { location: { <weekday>: <hours text> } } }`.  The
weekday-to-text object is an association list; a missing `results.location`
path behaves like an empty one (both make `getTimeout` catch and return
`undefined`). -/
structure StorepointResponse where
  success : Bool
  location : List (String × String)

/-- Model of `getBusinessHours` (src/index.ts:101-116).  The argument is the
outcome of `fetch` + `json()`: `.error` for a rejected promise (network error
or malformed payload), `.ok (respOk, data)` for a parsed body with the HTTP
`resp.ok` flag.  Every failure is thrown inside the `try`, caught, and turned
into `undefined`, modelled by `none`. -/
def getBusinessHours (fetchOutcome : Except String (Bool × StorepointResponse)) :
    Option StorepointResponse :=
  match fetchOutcome with
  | .error _ => none
  | .ok (respOk, data) =>
    if !respOk then none
    else if !data.success then none
    else some data

/-- Model of `getTimeout` (src/index.ts:123-132).  A missing weekday key makes
`hours` `undefined`, so `hours.split` throws a TypeError that the `catch`
turns into `undefined`; an unparseable token gives an invalid opening
DateTime whose diff is `undefined`. -/
def getTimeout (now : PTDateTime) (data : StorepointResponse) : Option Int :=
  match data.location.lookup (getCurrentDayOfWeekPT now) with
  | none => none
  | some hours => diffNowMsL (getOpeningTime now hours) now

/-- Model of `getFallbackTimeout` (src/index.ts:34-37): time from now until
today's `FALLBACK_HOUR` in PT, with `?? FALLBACK_TIMEOUT` guarding an
undefined difference. -/
def getFallbackTimeout (now : PTDateTime) : Int :=
  (diffNowMsL (setL (getTodayPT now) FALLBACK_HOUR 0 0 0) now).getD FALLBACK_TIMEOUT

/-- Model of `getFallbackDaysOpen` (src/index.ts:43-45):
`Math.ceil(-(OPENING_DATE.diffNow('days').toObject().days ?? 0)) + 1`. -/
def getFallbackDaysOpen (now : PTDateTime) : Int :=
  Int.ceil (-((diffNowDaysL OPENING_DATE now).getD 0)) + 1

/-- Model of `getMessage` (src/index.ts:52-54). -/
def getMessage (dayNumber : Int) : String :=
  "Round1 Plaza Bonita Day " ++ toString dayNumber ++ ": START"

/-- Model of `sendDiscordMessage` (src/index.ts:140-157).  The webhook POST is
a collaborator returning its HTTP status; the function has no try/catch, so a
rejected fetch propagates to the caller, and a resolved response of any
status is only logged. -/
def sendDiscordMessage (notifier : String → Except String Int) (msg : String) :
    Except String Int :=
  notifier msg

/-- Line 176 of `scheduled`:
`resp !== undefined ? getTimeout(resp) : getFallbackTimeout()`. -/
def timeoutOf (now : PTDateTime) (resp : Option StorepointResponse) : Option Int :=
  match resp with
  | some r => getTimeout now r
  | none => some (getFallbackTimeout now)

/-- Observable requests one invocation makes to its collaborators: how many
persistence reads were issued, which messages were handed to the notifier,
and which counter values were handed to the persistence write. -/
structure Trace where
  reads : Nat
  sent : List String
  written : List Int

/-- Model of the exported `scheduled` handler (src/index.ts:174-194).  The
collaborators are the storepoint fetch outcome, the D1 read
(`.first('DaysOpen')`, `.ok none` for a missing row), the Discord webhook
fetch, and the D1 update; each may throw (`.error`).  The result pairs the
trace of collaborator requests with normal (`.ok`) or abnormal (`.error`)
termination of the invocation; no exception is caught at this level, and the
`setTimeout` wait does not change the model's single instant `now`. -/
def scheduled (now : PTDateTime)
    (fetchOutcome : Except String (Bool × StorepointResponse))
    (dbRead : Except String (Option Int))
    (notifier : String → Except String Int)
    (dbWrite : Int → Except String Unit) : Trace × Except String Unit :=
  match timeoutOf now (getBusinessHours fetchOutcome) with
  | some _ =>
    match dbRead with
    | .error e => ({ reads := 1, sent := [], written := [] }, .error e)
    | .ok v =>
      let day := v.getD (getFallbackDaysOpen now)
      let message := getMessage day
      match sendDiscordMessage notifier message with
      | .error e => ({ reads := 1, sent := [message], written := [] }, .error e)
      | .ok _ =>
        match dbWrite (day + 1) with
        | .error e => ({ reads := 1, sent := [message], written := [day + 1] }, .error e)
        | .ok _ => ({ reads := 1, sent := [message], written := [day + 1] }, .ok ())
  | none => ({ reads := 0, sent := [], written := [] }, .ok ())

/-- Notifier collaborator that always resolves (HTTP 204). -/
def okNotify : String → Except String Int := fun _ => Except.ok 204

/-- Persistence write collaborator that always resolves. -/
def okWrite : Int → Except String Unit := fun _ => Except.ok ()

/-- Closed form of the fallback day counter: the ceiling of the exact number
of days elapsed since the opening instant (36000000 ms into model day 0),
plus one. -/
lemma getFallbackDaysOpen_eq (now : PTDateTime) :
    getFallbackDaysOpen now
      = Int.ceil (((now.instant - 36000000 : Int) : ℚ) / (86400000 : ℚ)) + 1 := by
  simp only [getFallbackDaysOpen, diffNowDaysL, OPENING_DATE, Option.map_some, Option.getD_some,
    msPerDay, PTDateTime.instant]
  norm_num [neg_div]
  ring_nf

/-- Interval characterisation of the fallback day counter: when the elapsed
time since the opening instant lies in ((k-1) days, k days], the counter is
k + 1. -/
lemma fallbackDaysOpen_interval (now : PTDateTime) (k : Int)
    (h1 : (k - 1) * msPerDay < now.instant - 36000000)
    (h2 : now.instant - 36000000 ≤ k * msPerDay) :
    getFallbackDaysOpen now = k + 1 := by
  rw [getFallbackDaysOpen_eq]
  simp only [msPerDay] at h1 h2
  have hceil : Int.ceil (((now.instant - 36000000 : Int) : ℚ) / (86400000 : ℚ)) = k := by
    rw [Int.ceil_eq_iff]
    constructor
    · rw [lt_div_iff₀ (by norm_num : (0:ℚ) < 86400000)]
      exact_mod_cast h1
    · rw [div_le_iff₀ (by norm_num : (0:ℚ) < 86400000)]
      exact_mod_cast h2
  rw [hceil]

/-- C1: if the hours fetch succeeded but today's weekday key is absent from
the hours map, or the opening-hour token fails both parse interpretations,
then the timeout computation returns undefined and the orchestrator
terminates in SKIPPED: nothing is sent and no persistence read or write is
requested. -/
theorem c1_missing_or_unparseable_skips (now : PTDateTime) (resp : StorepointResponse)
    (dbRead : Except String (Option Int)) (notifier : String → Except String Int)
    (dbWrite : Int → Except String Unit)
    (hs : resp.success = true)
    (h : resp.location.lookup (getCurrentDayOfWeekPT now) = none ∨
      ∃ hours, resp.location.lookup (getCurrentDayOfWeekPT now) = some hours ∧
        fromFormatHA (openingToken hours) = none ∧ fromFormatH_A (openingToken hours) = none) :
    getTimeout now resp = none ∧
    scheduled now (.ok (true, resp)) dbRead notifier dbWrite
      = ({ reads := 0, sent := [], written := [] }, .ok ()) := by
  have ht : getTimeout now resp = none := by
    rcases h with h | ⟨hours, hl, h1, h2⟩
    · simp [getTimeout, h]
    · simp [getTimeout, hl, getOpeningTime, h1, h2, diffNowMsL]
  exact ⟨ht, by simp [scheduled, timeoutOf, getBusinessHours, hs, ht]⟩

/-- Witness for C1 at a concrete input: a monday with an unparseable hours
text "Closed". -/
theorem c1_missing_or_unparseable_skips_witness :
    getTimeout ⟨2, 32400000⟩ ⟨true, [("monday", "Closed")]⟩ = none ∧
    scheduled ⟨2, 32400000⟩ (.ok (true, ⟨true, [("monday", "Closed")]⟩)) (.ok (some 7))
        okNotify okWrite
      = ({ reads := 0, sent := [], written := [] }, .ok ()) :=
  c1_missing_or_unparseable_skips ⟨2, 32400000⟩ ⟨true, [("monday", "Closed")]⟩ (.ok (some 7))
    okNotify okWrite rfl (Or.inr ⟨"Closed", rfl, rfl, rfl⟩)

/-- C2: every kind of hours-fetch failure (rejected fetch or malformed
payload, non-2xx status, success flag false) yields no response object; the
orchestrator then uses getFallbackTimeout, which is the difference between
now and the fixed 10:00 reference hour and is always a defined number, so a
best-effort send is still attempted. -/
theorem c2_fetch_failure_uses_fallback (now : PTDateTime) (e : String)
    (d : StorepointResponse) (loc : List (String × String)) (dbv : Int) :
    getBusinessHours (.error e) = none ∧
    getBusinessHours (.ok (false, d)) = none ∧
    getBusinessHours (.ok (true, { success := false, location := loc })) = none ∧
    timeoutOf now none = some (getFallbackTimeout now) ∧
    getFallbackTimeout now = (now.set FALLBACK_HOUR 0 0 0).instant - now.instant ∧
    scheduled now (.error e) (.ok (some dbv)) okNotify okWrite
      = ({ reads := 1, sent := [getMessage dbv], written := [dbv + 1] }, .ok ()) :=
  ⟨rfl, rfl, rfl, rfl, rfl, rfl⟩

/-- C3 counterexample: with a defined timeout and a notifier whose fetch
rejects (notifier unreachable), the invocation terminates abnormally and the
persistence increment is never requested — the dispatch failure is not
swallowed. -/
theorem c3_counterexample :
    scheduled ⟨2, 32400000⟩ (.ok (true, ⟨true, [("monday", "10am-2am")]⟩)) (.ok (some 7))
        (fun _ => .error "fetch rejected: notifier unreachable") okWrite
      = ({ reads := 1, sent := [getMessage 7], written := [] },
          .error "fetch rejected: notifier unreachable") := rfl

/-- C3 amended: a notifier call that resolves with any HTTP status (success
or not) is only logged and the invocation proceeds to the persistence
increment; but a thrown error from the notifier or from the persistence read
or write is not caught in scheduled: the invocation terminates abnormally,
and after a dispatch failure the persistence increment is not requested. -/
theorem c3_amended (now : PTDateTime) (resp : StorepointResponse) (n t status : Int) (e : String)
    (hs : resp.success = true) (ht : getTimeout now resp = some t) :
    scheduled now (.ok (true, resp)) (.ok (some n)) (fun _ => .ok status) okWrite
      = ({ reads := 1, sent := [getMessage n], written := [n + 1] }, .ok ()) ∧
    scheduled now (.ok (true, resp)) (.ok (some n)) (fun _ => .error e) okWrite
      = ({ reads := 1, sent := [getMessage n], written := [] }, .error e) ∧
    scheduled now (.ok (true, resp)) (.ok (some n)) okNotify (fun _ => .error e)
      = ({ reads := 1, sent := [getMessage n], written := [n + 1] }, .error e) ∧
    scheduled now (.ok (true, resp)) (.error e) okNotify okWrite
      = ({ reads := 1, sent := [], written := [] }, .error e) := by
  refine ⟨?_, ?_, ?_, ?_⟩ <;>
    simp [scheduled, timeoutOf, getBusinessHours, hs, ht, sendDiscordMessage, okNotify, okWrite]

/-- Witness for C3 amended: a non-2xx webhook response (HTTP 500) is still
followed by the persistence write. -/
theorem c3_amended_witness :
    scheduled ⟨2, 32400000⟩ (.ok (true, ⟨true, [("monday", "10am-2am")]⟩)) (.ok (some 7))
        (fun _ => Except.ok 500) okWrite
      = ({ reads := 1, sent := [getMessage 7], written := [8] }, .ok ()) :=
  (c3_amended ⟨2, 32400000⟩ ⟨true, [("monday", "10am-2am")]⟩ 7 3600000 500 "boom"
    rfl rfl).1

/-- C4 counterexample: on "10am-" the dash split yields exactly two parts
with an empty second part; the claim then demands the fallback split on
`to`, but splitTimes keeps the dash split — emptiness is never checked. -/
theorem c4_counterexample :
    (jsSplit "10am-" "-").length = 2 ∧ "" ∈ jsSplit "10am-" "-" ∧
    splitTimes "10am-" = ["10am", ""] ∧
    splitTimes "10am-" ≠ jsSplit "10am-" "to" := by
  refine ⟨rfl, by decide, rfl, by decide⟩

/-- C4 amended: the parser falls back to the literal `to` split exactly when
the `-` split does not yield exactly two parts, without checking the parts
for emptiness; whenever a two-part dash split has no empty part, this agrees
with the spec wording (splitTimesSpec). -/
theorem c4_amended (hours : String) :
    splitTimes hours
      = (if (jsSplit hours "-").length = 2 then jsSplit hours "-" else jsSplit hours "to") ∧
    ("" ∉ jsSplit hours "-" → splitTimes hours = splitTimesSpec hours) := by
  constructor
  · simp only [splitTimes]
    by_cases h : (jsSplit hours "-").length = 2 <;> simp [h]
  · intro hne
    simp only [splitTimes, splitTimesSpec]
    by_cases h : (jsSplit hours "-").length = 2 <;> simp [h, hne]

/-- Witness for C4 amended at a concrete input with two non-empty parts. -/
theorem c4_amended_witness :
    splitTimes "10AM - 2AM" = splitTimesSpec "10AM - 2AM" :=
  (c4_amended "10AM - 2AM").2 (by decide)

/-- C5: the three known hour-text formats all parse to the same opening
time — hour 10, minute 0, on today's date in the configured zone. -/
theorem c5_three_formats_agree (now : PTDateTime) :
    getOpeningTime now "10AM - 2AM" = some (now.set 10 0 0 0) ∧
    getOpeningTime now "10am-2am" = some (now.set 10 0 0 0) ∧
    getOpeningTime now "10am to 2am" = some (now.set 10 0 0 0) :=
  ⟨rfl, rfl, rfl⟩

/-- C6 counterexample: at 11:00 on the epoch day itself (one hour after the
opening instant) the fallback day counter is 2, not 1 as the claim states. -/
theorem c6_counterexample :
    (⟨0, 39600000⟩ : PTDateTime).day = 0 ∧
    getFallbackDaysOpen ⟨0, 39600000⟩ = 2 ∧
    getFallbackDaysOpen ⟨0, 39600000⟩ ≠ 1 := by
  have h2 : getFallbackDaysOpen ⟨0, 39600000⟩ = 2 :=
    fallbackDaysOpen_interval ⟨0, 39600000⟩ 1 (by decide) (by decide)
  exact ⟨rfl, h2, by rw [h2]; decide⟩

/-- C6 amended: with no persisted value the resolver returns the ceiling of
the fractional days elapsed since the opening instant, plus one: a now
exactly 5 whole days after the epoch instant gives 6; the result is 1 only
up to the 10:00 opening instant (and within the preceding day), and is 2 for
the rest of the epoch day. -/
theorem c6_amended :
    (∀ now : PTDateTime, now.instant = 36000000 + 5 * msPerDay →
      getFallbackDaysOpen now = 6) ∧
    (∀ now : PTDateTime, 36000000 - msPerDay < now.instant → now.instant ≤ 36000000 →
      getFallbackDaysOpen now = 1) ∧
    (∀ now : PTDateTime, now.day = 0 → 36000000 < now.msOfDay → now.msOfDay < msPerDay →
      getFallbackDaysOpen now = 2) := by
  refine ⟨?_, ?_, ?_⟩
  · intro now h
    refine fallbackDaysOpen_interval now 5 ?_ ?_ <;> simp only [msPerDay] at h ⊢ <;> omega
  · intro now h1 h2
    refine fallbackDaysOpen_interval now 0 ?_ ?_ <;> simp only [msPerDay] at h1 h2 ⊢ <;> omega
  · intro now hd hlo hhi
    have hi : now.instant = now.msOfDay := by
      simp [PTDateTime.instant, hd]
    refine fallbackDaysOpen_interval now 1 ?_ ?_ <;>
      rw [hi] <;> simp only [msPerDay] at hlo hhi ⊢ <;> omega

/-- Witness for C6 amended at concrete instants: 10:00 five days after the
epoch, midnight of the epoch day, and 23:00 of the epoch day. -/
theorem c6_amended_witness :
    getFallbackDaysOpen ⟨5, 36000000⟩ = 6 ∧
    getFallbackDaysOpen ⟨0, 0⟩ = 1 ∧
    getFallbackDaysOpen ⟨0, 82800000⟩ = 2 :=
  ⟨c6_amended.1 ⟨5, 36000000⟩ (by decide),
    c6_amended.2.1 ⟨0, 0⟩ (by decide) (by decide),
    c6_amended.2.2 ⟨0, 82800000⟩ rfl (by decide) (by decide)⟩

/-- C7 counterexample: 09:00 and 11:00 of the same calendar day (model day 3)
straddle the 10:00 opening wall-clock time and give different fallback day
numbers, so the computation is not a pure function of the calendar date. -/
theorem c7_counterexample :
    (⟨3, 32400000⟩ : PTDateTime).day = (⟨3, 39600000⟩ : PTDateTime).day ∧
    getFallbackDaysOpen ⟨3, 32400000⟩ = 4 ∧
    getFallbackDaysOpen ⟨3, 39600000⟩ = 5 :=
  ⟨rfl, fallbackDaysOpen_interval ⟨3, 32400000⟩ 3 (by decide) (by decide),
    fallbackDaysOpen_interval ⟨3, 39600000⟩ 4 (by decide) (by decide)⟩

/-- C7 amended: the fallback computation is a deterministic pure function of
the instant now — two evaluations at the same instant agree — though not of
the calendar date alone. -/
theorem c7_amended (n1 n2 : PTDateTime) (h : n1.instant = n2.instant) :
    getFallbackDaysOpen n1 = getFallbackDaysOpen n2 := by
  rw [getFallbackDaysOpen_eq, getFallbackDaysOpen_eq, h]

/-- Witness for C7 amended: two different civil decompositions of the same
instant give the same fallback day number. -/
theorem c7_amended_witness :
    getFallbackDaysOpen ⟨3, 32400000⟩ = getFallbackDaysOpen ⟨2, 118800000⟩ :=
  c7_amended ⟨3, 32400000⟩ ⟨2, 118800000⟩ (by decide)

/-- C8: with a successful fetch, a defined timeout and persisted counter n,
the orchestrator sends "Round1 Plaza Bonita Day n: START" and requests a
persistence write of n + 1; concretely, hours "10am-2am" on a monday at
09:00 PT with counter 7 give a 60-minute (3600000 ms) timeout, the message
"Round1 Plaza Bonita Day 7: START", and a write of 8. -/
theorem c8_end_to_end (n t : Int) (now : PTDateTime) (loc : List (String × String))
    (ht : getTimeout now ⟨true, loc⟩ = some t) :
    scheduled now (.ok (true, ⟨true, loc⟩)) (.ok (some n)) okNotify okWrite
      = ({ reads := 1, sent := [getMessage n], written := [n + 1] }, .ok ()) ∧
    getTimeout ⟨2, 32400000⟩ ⟨true, [("monday", "10am-2am")]⟩ = some 3600000 ∧
    getMessage 7 = "Round1 Plaza Bonita Day 7: START" ∧
    scheduled ⟨2, 32400000⟩ (.ok (true, ⟨true, [("monday", "10am-2am")]⟩)) (.ok (some 7))
        okNotify okWrite
      = ({ reads := 1, sent := ["Round1 Plaza Bonita Day 7: START"], written := [8] },
          .ok ()) := by
  refine ⟨?_, rfl, rfl, rfl⟩
  simp [scheduled, timeoutOf, getBusinessHours, ht, sendDiscordMessage, okNotify, okWrite]

/-- Witness for C8 at a concrete persisted counter of 41. -/
theorem c8_end_to_end_witness :
    scheduled ⟨2, 32400000⟩ (.ok (true, ⟨true, [("monday", "10am-2am")]⟩)) (.ok (some 41))
        okNotify okWrite
      = ({ reads := 1, sent := [getMessage 41], written := [42] }, .ok ()) :=
  (c8_end_to_end 41 3600000 ⟨2, 32400000⟩ [("monday", "10am-2am")] rfl).1

/-- C9: when a resolved opening exists the timeout computation returns
exactly the resolved opening minus now, positive or negative as-is: 90
minutes ahead gives +5400000 ms, 10 minutes past gives -600000 ms, and a
negative timeout does not make the orchestrator skip — the send still
occurs. -/
theorem c9_timeout_is_exact_difference (now : PTDateTime) (resp : StorepointResponse)
    (hours : String) (dt : PTDateTime)
    (hl : resp.location.lookup (getCurrentDayOfWeekPT now) = some hours)
    (ho : getOpeningTime now hours = some dt) :
    getTimeout now resp = some (dt.instant - now.instant) ∧
    getTimeout ⟨2, 30600000⟩ ⟨true, [("monday", "10am-2am")]⟩ = some 5400000 ∧
    getTimeout ⟨2, 36600000⟩ ⟨true, [("monday", "10am-2am")]⟩ = some (-600000) ∧
    scheduled ⟨2, 36600000⟩ (.ok (true, ⟨true, [("monday", "10am-2am")]⟩)) (.ok (some 7))
        okNotify okWrite
      = ({ reads := 1, sent := [getMessage 7], written := [8] }, .ok ()) := by
  refine ⟨?_, rfl, rfl, rfl⟩
  simp [getTimeout, hl, ho, diffNowMsL]

/-- Witness for C9 at a concrete monday 08:30 input. -/
theorem c9_timeout_is_exact_difference_witness :
    getTimeout ⟨2, 30600000⟩ ⟨true, [("monday", "10am-2am")]⟩
      = some ((PTDateTime.set ⟨2, 30600000⟩ 10 0 0 0).instant
          - (⟨2, 30600000⟩ : PTDateTime).instant) :=
  (c9_timeout_is_exact_difference ⟨2, 30600000⟩ ⟨true, [("monday", "10am-2am")]⟩ "10am-2am"
    (PTDateTime.set ⟨2, 30600000⟩ 10 0 0 0) rfl rfl).1

/-- C10: for every valid current DateTime the difference to today's 10:00
reference hour is a defined milliseconds value, so the second tier of
getFallbackTimeout (the fixed 3-minute FALLBACK_TIMEOUT constant) is
unreachable and the function always returns the time until the reference
hour. -/
theorem c10_fallback_constant_unreachable (now : PTDateTime) :
    (diffNowMsL (setL (getTodayPT now) FALLBACK_HOUR 0 0 0) now).isSome = true ∧
    getFallbackTimeout now = (now.set FALLBACK_HOUR 0 0 0).instant - now.instant :=
  ⟨rfl, rfl⟩
